import Mathlib

/-!
Verification of the `AsyncEvalClient` methods of
`src/Demos/Evaluation/scripts/eval_utils.py`.

Each method of the Python class wraps one or more calls to a remote
service client.  We embed every method shallowly: the outcome of each
remote call (and of the local `open` of the file to upload) is passed in
as an explicit `Except Err _` value, and a method body is translated to a
Lean function over those outcomes.  A method whose Python body lets an
exception escape is given return type `Except Err _`, with `Except.error`
standing for the propagated exception; a method whose body catches every
exception is given the plain return type of its Python success and
sentinel values.  For `upload_file` we additionally return the list of
remote calls the method issues, in order, so that claims counting create
calls can be stated.
-/

namespace EvalUtils

/-- An exception raised by a remote call or by local file I/O, carried as
its message string (Python catches all of them as `Exception`). -/
abbrev Err := String

/-- A remote file record as seen through the listing response: the
service-assigned `id` and the human-assigned `filename`
(`file.id`, `file.filename` in the Python loop). -/
structure RemoteFile where
  id : String
  filename : String
deriving Repr, DecidableEq

/-- A remote call issued by `upload_file`: the dedup listing call
(`client.files.list()`) or the create call
(`client.files.create(file=f, purpose=purpose)`), recorded with the
purpose tag it passes. -/
inductive RemoteCall where
  | listFiles : RemoteCall
  | createFile (purpose : String) : RemoteCall
deriving Repr, DecidableEq

/-- The environment `upload_file` runs against: the outcome of the
listing call, of opening the local path for binary reading, and of the
create call (whose success value is the new file's id). -/
structure UploadEnv where
  listResult : Except Err (List RemoteFile)
  openResult : Except Err Unit
  createResult : Except Err String

/-- A Python dict, embedded as an association list of string keys and
string values (the fields the claims inspect are strings). -/
abbrev PyDict := List (String × String)

/-- `AsyncEvalClient.upload_file` (eval_utils.py lines 44-79).  The
listing call is issued outside any handler, so its failure propagates
(`Except.error`).  A first entry whose `filename` equals `file_name`
short-circuits the loop and its id is returned with no create call.
Otherwise the `try` block opens the local file and issues the create
call; any exception in that block — from `open` as much as from the
create call, since `open` stands inside the `try` — is caught and turned
into the empty-string sentinel.  The second component is the list of
remote calls issued, in order. -/
def upload_file (env : UploadEnv) (file_name : String)
    (purpose : String := "evals") : Except Err String × List RemoteCall :=
  match env.listResult with
  | Except.error e => (Except.error e, [RemoteCall.listFiles])
  | Except.ok files =>
    match files.find? (fun file => file.filename == file_name) with
    | some file => (Except.ok file.id, [RemoteCall.listFiles])
    | none =>
      match env.openResult with
      | Except.error _ => (Except.ok "", [RemoteCall.listFiles])
      | Except.ok _ =>
        match env.createResult with
        | Except.error _ =>
            (Except.ok "", [RemoteCall.listFiles, RemoteCall.createFile purpose])
        | Except.ok new_id =>
            (Except.ok new_id, [RemoteCall.listFiles, RemoteCall.createFile purpose])

/-- `AsyncEvalClient.get_eval_list_sdk` (lines 110-118): `evals.list()`
is issued with no `try`/`except`, so a failure propagates; on success the
response's `data` sequence is returned unchanged. -/
def get_eval_list_sdk {α : Type} (call : Except Err (List α)) :
    Except Err (List α) :=
  match call with
  | Except.error e => Except.error e
  | Except.ok data => Except.ok data

/-- `AsyncEvalClient.get_eval_sdk` (lines 122-135): on success the
retrieved record's dict is returned; a failing `evals.retrieve` is caught
and a placeholder dict with the single synthesized `name` field is
returned. -/
def get_eval_sdk (call : Except Err PyDict) (eval_id : String) : PyDict :=
  match call with
  | Except.ok d => d
  | Except.error _ => [("name", "Unknown Evaluation (" ++ eval_id ++ ")")]

/-- `AsyncEvalClient.delete_eval_sdk` (lines 139-153): `true` when
`evals.delete` does not raise, `false` when it raises (caught and
logged). -/
def delete_eval_sdk (call : Except Err Unit) : Bool :=
  match call with
  | Except.ok _ => true
  | Except.error _ => false

/-- `AsyncEvalClient.create_eval_run_sdk` (lines 158-181): on success the
created run record's dict is returned; a failing `evals.runs.create` is
caught and the empty dict is returned. -/
def create_eval_run_sdk (call : Except Err PyDict) : PyDict :=
  match call with
  | Except.ok response => response
  | Except.error _ => []

/-- `AsyncEvalClient.get_eval_run_list_sdk` (lines 185-192):
`evals.runs.list` is issued with no `try`/`except`, so a failure
propagates; on success the response's `data` sequence is returned. -/
def get_eval_run_list_sdk {α : Type} (call : Except Err (List α)) :
    Except Err (List α) :=
  match call with
  | Except.error e => Except.error e
  | Except.ok data => Except.ok data

/-- `AsyncEvalClient.get_eval_run_sdk` (lines 196-210): on success the
run record's dict is returned; a failing `evals.runs.retrieve` is caught
and the empty dict is returned. -/
def get_eval_run_sdk (call : Except Err PyDict) : PyDict :=
  match call with
  | Except.ok response => response
  | Except.error _ => []

/-- `AsyncEvalClient.get_eval_run_output_items_sdk` (lines 214-228): a
failing `evals.runs.output_items.list` is caught and the empty sequence
is returned; on success the response's `data` sequence is returned. -/
def get_eval_run_output_items_sdk {α : Type} (call : Except Err (List α)) :
    Except Err (List α) :=
  match call with
  | Except.ok data => Except.ok data
  | Except.error _ => Except.ok []

/-- `AsyncEvalClient.cancel_eval_run_sdk` (lines 255-270): `true` when
`evals.runs.cancel` does not raise, `false` when it raises. -/
def cancel_eval_run_sdk (call : Except Err Unit) : Bool :=
  match call with
  | Except.ok _ => true
  | Except.error _ => false

/-- `AsyncEvalClient.delete_eval_run_sdk` (lines 274-289): `true` when
`evals.runs.delete` does not raise, `false` when it raises. -/
def delete_eval_run_sdk (call : Except Err Unit) : Bool :=
  match call with
  | Except.ok _ => true
  | Except.error _ => false

/-- `List.find?` over a split list: when the predicate fails on every
element of the prefix and holds at the split element, `find?` returns the
split element. -/
theorem find?_of_split {α : Type} (p : α → Bool) (pre : List α) (f : α)
    (post : List α) (hpre : ∀ g ∈ pre, p g = false) (hf : p f = true) :
    (pre ++ f :: post).find? p = some f := by
  induction pre with
  | nil => simp [List.find?, hf]
  | cons g gs ih =>
    have hg : p g = false := hpre g (List.mem_cons_self g gs)
    simp only [List.cons_append, List.find?, hg]
    exact ih fun x hx => hpre x (List.mem_cons_of_mem g hx)

/-- C1: when `file_name` is the filename of some entry of the remote
listing, `upload_file` issues zero create calls (its call trace is the
single listing call) and returns the id of the first entry in listing
order whose filename equals `file_name`, whatever the outcomes of opening
the local file and of the create call (the local path and content are
never consulted). -/
theorem upload_file_existing (env : UploadEnv) (file_name purpose : String)
    (pre : List RemoteFile) (f : RemoteFile) (post : List RemoteFile)
    (hlist : env.listResult = Except.ok (pre ++ f :: post))
    (hf : f.filename = file_name)
    (hpre : ∀ g ∈ pre, g.filename ≠ file_name) :
    upload_file env file_name purpose = (Except.ok f.id, [RemoteCall.listFiles]) := by
  have hfind : (pre ++ f :: post).find?
      (fun file => file.filename == file_name) = some f := by
    refine find?_of_split _ pre f post (fun g hg => ?_) (by simp [hf])
    simpa using hpre g hg
  simp [upload_file, hlist, hfind]

/-- Witness for C1 at a concrete listing: the second entry is the first
match, its id is returned, and no create call is issued even though both
the open and the create outcomes are failures. -/
theorem upload_file_existing_witness :
    upload_file
        ⟨Except.ok [⟨"id0", "other.json"⟩, ⟨"id1", "a.json"⟩, ⟨"id2", "a.json"⟩],
         Except.error "unreadable", Except.error "remote down"⟩
        "a.json" "evals"
      = (Except.ok "id1", [RemoteCall.listFiles]) :=
  upload_file_existing _ "a.json" "evals"
    [⟨"id0", "other.json"⟩] ⟨"id1", "a.json"⟩ [⟨"id2", "a.json"⟩]
    rfl rfl (by decide)

/-- C2: when `file_name` is absent from the remote listing and both the
local open and the remote create call succeed, `upload_file` issues
exactly one create call carrying the given purpose tag (default
`"evals"`) and returns the id from the create response. -/
theorem upload_file_new (env : UploadEnv) (file_name purpose new_id : String)
    (files : List RemoteFile)
    (hlist : env.listResult = Except.ok files)
    (habsent : ∀ f ∈ files, f.filename ≠ file_name)
    (hopen : env.openResult = Except.ok ())
    (hcreate : env.createResult = Except.ok new_id) :
    upload_file env file_name purpose
      = (Except.ok new_id, [RemoteCall.listFiles, RemoteCall.createFile purpose]) := by
  have hfind : files.find? (fun file => file.filename == file_name) = none := by
    rw [List.find?_eq_none]
    intro f hf
    simpa using habsent f hf
  simp [upload_file, hlist, hfind, hopen, hcreate]

/-- Witness for C2: an empty listing, a successful open and create; the
call uses the default purpose `"evals"`, the create id is returned and
the trace holds exactly one create call tagged `"evals"`. -/
theorem upload_file_new_witness :
    upload_file ⟨Except.ok [], Except.ok (), Except.ok "file-new"⟩ "b.json"
      = (Except.ok "file-new", [RemoteCall.listFiles, RemoteCall.createFile "evals"]) :=
  upload_file_new _ "b.json" "evals" "file-new" [] rfl (by decide) rfl rfl

/-- C3: when the remote create call raises, `upload_file` catches the
error and returns the empty-string sentinel, and the failed create is the
last remote call in the trace — no further remote call follows it. -/
theorem upload_file_create_fails (env : UploadEnv) (file_name purpose : String)
    (e : Err) (files : List RemoteFile)
    (hlist : env.listResult = Except.ok files)
    (habsent : ∀ f ∈ files, f.filename ≠ file_name)
    (hopen : env.openResult = Except.ok ())
    (hcreate : env.createResult = Except.error e) :
    upload_file env file_name purpose
      = (Except.ok "", [RemoteCall.listFiles, RemoteCall.createFile purpose]) := by
  have hfind : files.find? (fun file => file.filename == file_name) = none := by
    rw [List.find?_eq_none]
    intro f hf
    simpa using habsent f hf
  simp [upload_file, hlist, hfind, hopen, hcreate]

/-- Witness for C3: empty listing, open succeeds, create raises; the
result is the empty string and the trace ends at the create call. -/
theorem upload_file_create_fails_witness :
    upload_file ⟨Except.ok [], Except.ok (), Except.error "503"⟩ "b.json" "evals"
      = (Except.ok "", [RemoteCall.listFiles, RemoteCall.createFile "evals"]) :=
  upload_file_create_fails _ "b.json" "evals" "503" [] rfl (by decide) rfl rfl

/-- Counterexample to C4: with the name absent from the listing and the
local open failing, `upload_file` returns the empty-string sentinel
(`Except.ok ""`) instead of letting the I/O error propagate — in the
Python source the `open` stands inside the `try` block, so its exception
is caught like a create failure. -/
theorem upload_file_open_error_counterexample :
    upload_file
        ⟨Except.ok [], Except.error "No such file or directory", Except.ok "file-x"⟩
        "b.json" "evals"
      = (Except.ok "", [RemoteCall.listFiles]) := rfl

/-- C4 amended: when the name is absent from the listing and opening the
local file fails, the I/O error is caught by the same handler as a create
failure, `upload_file` returns the empty-string sentinel, and no create
call is issued. -/
theorem upload_file_open_error_absorbed (env : UploadEnv)
    (file_name purpose : String) (e : Err) (files : List RemoteFile)
    (hlist : env.listResult = Except.ok files)
    (habsent : ∀ f ∈ files, f.filename ≠ file_name)
    (hopen : env.openResult = Except.error e) :
    upload_file env file_name purpose = (Except.ok "", [RemoteCall.listFiles]) := by
  have hfind : files.find? (fun file => file.filename == file_name) = none := by
    rw [List.find?_eq_none]
    intro f hf
    simpa using habsent f hf
  simp [upload_file, hlist, hfind, hopen]

/-- Witness for the amended C4: empty listing and a failing open give the
empty-string sentinel and a trace with no create call. -/
theorem upload_file_open_error_absorbed_witness :
    upload_file ⟨Except.ok [], Except.error "EACCES", Except.ok "file-x"⟩
        "c.json" "evals"
      = (Except.ok "", [RemoteCall.listFiles]) :=
  upload_file_open_error_absorbed _ "c.json" "evals" "EACCES" [] rfl (by decide) rfl

/-- Counterexample to C5: a failing remote call in the evaluation
listing is not converted to an empty sequence — `get_eval_list_sdk` has
no handler and the error comes back unchanged. -/
theorem get_eval_list_error_counterexample :
    get_eval_list_sdk (α := PyDict) (Except.error "timeout") ≠ Except.ok [] := by
  simp [get_eval_list_sdk]

/-- C5 amended: of the three non-dedup listing operations, only the
output-items listing absorbs a remote failure into the empty sequence;
the evaluation listing and the evaluation-run listing have no handler and
propagate the failure to the caller. -/
theorem listing_error_policy {α β γ : Type} (e : Err) :
    get_eval_list_sdk (α := α) (Except.error e) = Except.error e ∧
    get_eval_run_list_sdk (α := β) (Except.error e) = Except.error e ∧
    get_eval_run_output_items_sdk (α := γ) (Except.error e) = Except.ok [] :=
  ⟨rfl, rfl, rfl⟩

/-- C6: when the remote retrieve raises, the record returned by
`get_eval_sdk` has its `name` field equal to exactly
`"Unknown Evaluation (<id>)"` with the requested identifier substituted. -/
theorem get_eval_sdk_error_name (e : Err) (eval_id : String) :
    (get_eval_sdk (Except.error e) eval_id).lookup "name"
      = some ("Unknown Evaluation (" ++ eval_id ++ ")") := by
  simp [get_eval_sdk, List.lookup]

/-- C7: each of evaluation delete, run cancel and run delete returns
`true` exactly when its single remote call does not raise; a raising call
is caught and `false` is returned. -/
theorem delete_cancel_success_iff (c₁ c₂ c₃ : Except Err Unit) :
    (delete_eval_sdk c₁ = true ↔ c₁.isOk = true) ∧
    (cancel_eval_run_sdk c₂ = true ↔ c₂.isOk = true) ∧
    (delete_eval_run_sdk c₃ = true ↔ c₃.isOk = true) := by
  refine ⟨?_, ?_, ?_⟩
  · cases c₁ <;> simp [delete_eval_sdk, Except.isOk, Except.toBool]
  · cases c₂ <;> simp [cancel_eval_run_sdk, Except.isOk, Except.toBool]
  · cases c₃ <;> simp [delete_eval_run_sdk, Except.isOk, Except.toBool]

/-- C8: a failing remote file-listing call in the dedup step of
`upload_file` propagates unchanged, and no call after the listing is
issued. -/
theorem upload_file_list_error (env : UploadEnv) (file_name purpose : String)
    (e : Err) (hlist : env.listResult = Except.error e) :
    upload_file env file_name purpose = (Except.error e, [RemoteCall.listFiles]) := by
  simp [upload_file, hlist]

/-- Witness for C8: a concrete failing listing outcome propagates out of
`upload_file`. -/
theorem upload_file_list_error_witness :
    upload_file ⟨Except.error "401", Except.ok (), Except.ok "file-x"⟩
        "a.json" "evals"
      = (Except.error "401", [RemoteCall.listFiles]) :=
  upload_file_list_error _ "a.json" "evals" "401" rfl

/-- C9: run create and run retrieve return the full run record as a
mapping on success and the empty mapping when the remote call raises. -/
theorem run_record_sentinels (d : PyDict) (e : Err) :
    create_eval_run_sdk (Except.ok d) = d ∧
    create_eval_run_sdk (Except.error e) = [] ∧
    get_eval_run_sdk (Except.ok d) = d ∧
    get_eval_run_sdk (Except.error e) = [] :=
  ⟨rfl, rfl, rfl, rfl⟩

/-- C10: the placeholder record `get_eval_sdk` returns on a failing
retrieve has exactly the single key `"name"` — no identifier and no other
attribute of the requested evaluation. -/
theorem get_eval_sdk_error_keys (e : Err) (eval_id : String) :
    (get_eval_sdk (Except.error e) eval_id).map Prod.fst = ["name"] := rfl

end EvalUtils
